import Mathlib

/-!
Shallow embedding of the A2A sample agents (`rchaganti/a2a-samples`):
the MAF weather agent's JSON-RPC dispatcher (`maf_weather_agent.py`)
and the currency agent's conversion tool (`currency_agent/agent.py`).

Python values flowing through the dispatcher are modelled by a `Json`
inductive; Python exceptions are modelled by `Except String`, the
string being the exception's message text (`str(e)`).
-/

/-- JSON values / Python objects as decoded by `request.json()`. -/
inductive Json where
  | str (s : String)
  | num (n : Int)
  | bool (b : Bool)
  | null
  | arr (xs : List Json)
  | obj (fields : List (String × Json))

/-- Python type name of a value, as it appears in exception messages. -/
def pyTypeName : Json → String
  | .str _ => "str"
  | .num _ => "int"
  | .bool _ => "bool"
  | .null => "NoneType"
  | .arr _ => "list"
  | .obj _ => "dict"

mutual
/-- Python `repr` of a value (as used by `str` on containers). -/
def pyRepr : Json → String
  | .str s => "'" ++ s ++ "'"
  | .num n => toString n
  | .bool b => if b then "True" else "False"
  | .null => "None"
  | .arr xs => "[" ++ pyReprList xs ++ "]"
  | .obj fs => "\x7b" ++ pyReprObj fs ++ "\x7d"

def pyReprList : List Json → String
  | [] => ""
  | [x] => pyRepr x
  | x :: xs => pyRepr x ++ ", " ++ pyReprList xs

def pyReprObj : List (String × Json) → String
  | [] => ""
  | [(k, v)] => "'" ++ k ++ "': " ++ pyRepr v
  | (k, v) :: xs => "'" ++ k ++ "': " ++ pyRepr v ++ ", " ++ pyReprObj xs
end

/-- Python `str()` of a value, as interpolated by f-strings. -/
def pyStr : Json → String
  | .str s => s
  | j => pyRepr j

/-- `d.get(key, default)` on a Python value: succeeds on dicts, raises
`AttributeError` otherwise. -/
def pyGet (j : Json) (key : String) (default : Json) : Except String Json :=
  match j with
  | .obj fields => .ok ((fields.lookup key).getD default)
  | _ => .error ("'" ++ pyTypeName j ++ "' object has no attribute 'get'")

/-- `d.get(key)` with no default: missing key yields Python `None`. -/
def pyGetNone (j : Json) (key : String) : Except String Json :=
  match j with
  | .obj fields => .ok ((fields.lookup key).getD .null)
  | _ => .error ("'" ++ pyTypeName j ++ "' object has no attribute 'get'")

/-- Python `for x in j`: lists iterate elements, strings iterate
one-character strings, dicts iterate keys; other values raise
`TypeError`. -/
def pyIter (j : Json) : Except String (List Json) :=
  match j with
  | .arr xs => .ok xs
  | .str s => .ok (s.toList.map (fun c => Json.str (String.singleton c)))
  | .obj fs => .ok (fs.map (fun kv => Json.str kv.1))
  | _ => .error ("'" ++ pyTypeName j ++ "' object is not iterable")

/-- Pure lookup into an object (used for stating properties). -/
def jLookup (j : Json) (key : String) : Option Json :=
  match j with
  | .obj fields => fields.lookup key
  | _ => none

/-- Is the value a Python dict? -/
def Json.isObj : Json → Bool
  | .obj _ => true
  | _ => false

/-- Python `j == s` for a string literal `s`: true only when `j` is the
equal string (comparison with a non-string Python value is `False`). -/
def jEqStr (j : Json) (s : String) : Bool :=
  match j with
  | .str t => t = s
  | _ => false

/-! ### Python string primitives -/

/-- Python `str.lower()` (ASCII; sufficient for the data in this repo). -/
def pyLower (s : String) : String := ⟨s.toList.map Char.toLower⟩

/-- Python `str.upper()`. -/
def pyUpper (s : String) : String := ⟨s.toList.map Char.toUpper⟩

/-- Python `str.strip()`: remove leading/trailing whitespace. -/
def pyStrip (s : String) : String :=
  ⟨((s.toList.dropWhile Char.isWhitespace).reverse.dropWhile
      Char.isWhitespace).reverse⟩

/-- `sep.join(l)`. -/
def strJoin (sep : String) : List String → String
  | [] => ""
  | [x] => x
  | x :: xs => x ++ sep ++ strJoin sep xs

/-- Helper for `pyTitle`: the boolean carries whether the previous
character was alphabetic. -/
def pyTitleAux : Bool → List Char → List Char
  | _, [] => []
  | prevAlpha, c :: cs =>
    let c' := if c.isAlpha then (if prevAlpha then c.toLower else c.toUpper) else c
    c' :: pyTitleAux c.isAlpha cs

/-- Python `str.title()`: uppercase each letter that follows a
non-letter, lowercase the other letters. -/
def pyTitle (s : String) : String := ⟨pyTitleAux false s.toList⟩

/-- Helper for `strContains`: does `pat` occur as a contiguous run in `l`? -/
def listContainsAux (l pat : List Char) : Bool :=
  match l with
  | [] => pat.isEmpty
  | _ :: cs => pat.isPrefixOf l || listContainsAux cs pat

/-- Python `pat in s` substring test. -/
def strContains (s pat : String) : Bool := listContainsAux s.toList pat.toList

/-- Helper for `pySplit`: cut at whitespace, accumulating the current
(reversed) word. -/
def pySplitAux : List Char → List Char → List String
  | [], acc => [⟨acc.reverse⟩]
  | c :: cs, acc =>
      if c.isWhitespace then ⟨acc.reverse⟩ :: pySplitAux cs []
      else pySplitAux cs (c :: acc)

/-- Python `str.split()` with no argument: split on whitespace runs,
dropping empty pieces. -/
def pySplit (s : String) : List String :=
  (pySplitAux s.toList []).filter (fun w => w ≠ "")

/-! ### Weather skill handlers (`maf_weather_agent.py`)

`datetime.now()` and the per-process string-hash seed are ambient
process state; the embedding passes them explicitly in an `Env`:
`isoNow` is `datetime.now().isoformat()`, `dateStr i` / `dayStr i` are
`(datetime.now() + timedelta(days=i+1)).strftime("%Y-%m-%d")` /
`strftime("%A")`, and `strHash` is Python's per-process `hash` on
strings. -/

structure Env where
  isoNow : String
  dateStr : Nat → String
  dayStr : Nat → String
  strHash : String → Int

/-- One city's entry of `WEATHER_DATA`. -/
structure CityData where
  temperature : Int
  condition : String
  humidity : Nat
  wind : String
deriving DecidableEq

/-- The `WEATHER_DATA` dict, in insertion order. -/
def WEATHER_DATA : List (String × CityData) :=
  [("new york", ⟨72, "Partly Cloudy", 65, "10 mph NW"⟩),
   ("london", ⟨59, "Overcast", 80, "15 mph SW"⟩),
   ("tokyo", ⟨78, "Clear", 55, "5 mph E"⟩),
   ("paris", ⟨68, "Sunny", 45, "8 mph N"⟩),
   ("sydney", ⟨65, "Rainy", 90, "20 mph SE"⟩)]

/-- `", ".join(c.title() for c in WEATHER_DATA.keys())`. -/
def availableCities : String :=
  strJoin ", " (WEATHER_DATA.map (fun kv => pyTitle kv.1))

/-- `round((t - 32) * 5 / 9, 1)` — Python float arithmetic and
rounding abstracted as exact rational rounding to one decimal; the two
agree on every temperature in `WEATHER_DATA`. -/
def tempC (t : Int) : ℚ := ((round (((t : ℚ) - 32) * 5 / 9 * 10) : ℤ) : ℚ) / 10

/-- Result dict of `get_current_weather`: the success shape and the
not-available shape carry different keys. -/
inductive CurrentWeather where
  | ok (city : String) (temperature_f : Int) (temperature_c : ℚ)
      (condition humidity wind timestamp message : String)
  | notFound (city message : String)
deriving DecidableEq

/-- The `timestamp` field of a current-weather result. -/
def cwTimestamp : CurrentWeather → Option String
  | .ok _ _ _ _ _ _ timestamp _ => some timestamp
  | .notFound _ _ => none

/-- `get_current_weather(city)`. -/
def get_current_weather (env : Env) (city : String) : CurrentWeather :=
  let city_lower := pyStrip (pyLower city)
  match WEATHER_DATA.lookup city_lower with
  | some data =>
      .ok (pyTitle city) data.temperature (tempC data.temperature)
        data.condition (toString data.humidity ++ "%") data.wind env.isoNow
        ("Current weather in " ++ pyTitle city ++ ": " ++
          toString data.temperature ++ "¬∞F, " ++ data.condition)
  | none =>
      .notFound city
        ("Weather data not available for " ++ city ++
          ". Available cities: " ++ availableCities)

/-- One entry of the forecast list built by `get_weather_forecast`. -/
structure ForecastDay where
  date : String
  day : String
  high_f : Int
  low_f : Int
  condition : String
deriving DecidableEq

/-- Result dict of `get_weather_forecast`. -/
inductive Forecast where
  | ok (city : String) (days : Nat) (forecast : List ForecastDay) (message : String)
  | notFound (city message : String)
deriving DecidableEq

/-- The local `conditions` list of `get_weather_forecast`. -/
def forecastConditions : List String :=
  ["Sunny", "Partly Cloudy", "Cloudy", "Rainy", "Clear"]

/-- `get_weather_forecast(city, days)` (`days` is non-negative; Python's
`range(days)` is empty for negative values anyway). -/
def get_weather_forecast (env : Env) (city : String) (days : Nat) : Forecast :=
  let city_lower := pyStrip (pyLower city)
  match WEATHER_DATA.lookup city_lower with
  | none => .notFound city ("Forecast not available for " ++ city)
  | some base =>
      let forecast := (List.range days).map (fun i =>
        let temp_variation : Int := ((i * 3) % 10 : Nat) - 5
        { date := env.dateStr i
          day := env.dayStr i
          high_f := base.temperature + temp_variation + 5
          low_f := base.temperature + temp_variation - 10
          condition := forecastConditions.getD
            (((i : Int) + env.strHash city_lower) % 5).toNat "" })
      .ok (pyTitle city) days forecast
        (toString days ++ "-day forecast for " ++ pyTitle city ++ " generated")

/-- One simulated alert of `get_weather_alerts`. -/
structure Alert where
  type : String
  severity : String
  message : String
deriving DecidableEq

/-- The simulated `alerts` dict local to `get_weather_alerts`. -/
def ALERT_TABLE : List (String × List Alert) :=
  [("sydney", [⟨"Rain Warning", "Moderate", "Heavy rain expected this afternoon"⟩]),
   ("london", [⟨"Wind Advisory", "Low", "Gusty winds possible tonight"⟩])]

/-- Result dict of `get_weather_alerts` (always `success: True`). -/
structure AlertsResult where
  success : Bool
  city : String
  alerts : List Alert
  alert_count : Nat
  message : String
deriving DecidableEq

/-- `get_weather_alerts(city)` — reads no ambient state at all. -/
def get_weather_alerts (city : String) : AlertsResult :=
  let city_lower := pyStrip (pyLower city)
  let city_alerts := (ALERT_TABLE.lookup city_lower).getD []
  { success := true
    city := pyTitle city
    alerts := city_alerts
    alert_count := city_alerts.length
    message :=
      if city_alerts ≠ [] then
        toString city_alerts.length ++ " active alert(s) for " ++ pyTitle city
      else "No active alerts for " ++ pyTitle city }

/-! ### The keyword query router (`process_weather_query`) -/

/-- Python f-string rendering of the one-decimal float stored in
`temperature_c` (the value is always an exact multiple of 1/10). -/
def fmtTenths (q : ℚ) : String :=
  let t : Int := round (q * 10)
  (if t < 0 then "-" else "") ++
    toString (t.natAbs / 10) ++ "." ++ toString (t.natAbs % 10)

/-- One line of the rendered forecast. -/
def forecastLine (f : ForecastDay) : String :=
  f.day ++ ": " ++ f.condition ++ ", High: " ++ toString f.high_f ++
    "¬∞F, Low: " ++ toString f.low_f ++ "¬∞F"

/-- One line of the rendered alert list. -/
def alertLine (a : Alert) : String :=
  "‚ö†Ô∏è " ++ a.type ++ " (" ++ a.severity ++ "): " ++ a.message

/-- The default help reply of the router. -/
def defaultHelpText : String :=
  "I'm a weather agent! I can help you with:\n" ++
  "- Current weather conditions\n" ++
  "- Weather forecasts (up to 7 days)\n" ++
  "- Weather alerts and warnings\n\n" ++
  "Available cities: " ++ availableCities ++ "\n\n" ++
  "Try asking: 'What's the weather in Tokyo?' or 'Get the forecast for London'"

/-- City extraction of `process_weather_query`: first a substring scan
of the lowercased query over the dict keys in order, then a fallback
scan over whitespace-separated words looked up as lowercased keys. -/
def findCityKey (query : String) : Option String :=
  let query_lower := pyLower query
  match (WEATHER_DATA.map Prod.fst).find? (fun c => strContains query_lower c) with
  | some c => some c
  | none =>
      ((pySplit query).find?
        (fun w => (WEATHER_DATA.lookup (pyLower w)).isSome)).map pyLower

/-- `process_weather_query(query)`: the keyword router. -/
def processWeatherQuery (env : Env) (query : String) : String :=
  let query_lower := pyLower query
  let city? := findCityKey query
  if strContains query_lower "forecast" then
    match city? with
    | some city =>
        let days : Nat :=
          if strContains query "5" || strContains query_lower "five" then 5
          else if strContains query "7" || strContains query_lower "week" then 7
          else 3
        match get_weather_forecast env city days with
        | .ok _ _ fc _ =>
            "Weather forecast for " ++ pyTitle city ++ ":\n" ++
              strJoin "\n" (fc.map forecastLine)
        | .notFound _ msg => msg
    | none =>
        "Please specify a city for the forecast. Available cities: " ++
          availableCities
  else if strContains query_lower "alert" || strContains query_lower "warning" then
    match city? with
    | some city =>
        let result := get_weather_alerts city
        if result.alerts ≠ [] then
          "Weather alerts for " ++ pyTitle city ++ ":\n" ++
            strJoin "\n" (result.alerts.map alertLine)
        else "No active weather alerts for " ++ pyTitle city ++ "."
    | none => "Please specify a city to check for weather alerts."
  else if city?.isSome || strContains query_lower "weather" ||
      strContains query_lower "temperature" then
    match city? with
    | some city =>
        match get_current_weather env city with
        | .ok c tf tc cond hum wind _ _ =>
            "Current weather in " ++ c ++ ":\n" ++
              "üå°Ô∏è Temperature: " ++ toString tf ++ "¬∞F (" ++ fmtTenths tc ++ "¬∞C)\n" ++
              "‚òÅÔ∏è Condition: " ++ cond ++ "\n" ++
              "üíß Humidity: " ++ hum ++ "\n" ++
              "üí® Wind: " ++ wind
        | .notFound _ msg => msg
    | none => "Please specify a city. Available cities: " ++ availableCities
  else defaultHelpText

/-! ### The A2A dispatcher (`handle_a2a_request`)

The request body is `Except String Json`: `.error e` models
`await request.json()` raising with message `e`; everything raised
inside the `try` block lands in the single `except Exception` handler. -/

/-- The `for part in parts` loop: return the `text` of the first part
whose `kind` equals `"text"` (breaking out of the loop), the empty
string when no part matches; `.get` on a non-dict part raises. -/
def extractUserText : List Json → Except String Json
  | [] => .ok (.str "")
  | p :: rest =>
    match pyGetNone p "kind" with
    | .error e => .error e
    | .ok kind =>
        if jEqStr kind "text" then pyGet p "text" (.str "")
        else extractUserText rest

/-- `process_weather_query` applied to the extracted value: a
non-string raises `AttributeError` at `query.lower()`. -/
def processWeatherQueryJ (env : Env) (j : Json) : Except String String :=
  match j with
  | .str s => .ok (processWeatherQuery env s)
  | _ => .error ("'" ++ pyTypeName j ++ "' object has no attribute 'lower'")

/-- A JSON-RPC success envelope `{jsonrpc, id, result}`. -/
def successEnv (rid result : Json) : Json :=
  .obj [("jsonrpc", .str "2.0"), ("id", rid), ("result", result)]

/-- A JSON-RPC error envelope `{jsonrpc, id, error: {code, message}}`. -/
def errEnv (rid : Json) (code : Int) (message : String) : Json :=
  .obj [("jsonrpc", .str "2.0"), ("id", rid),
        ("error", .obj [("code", .num code), ("message", .str message)])]

/-- The `message/send` result payload. -/
def messageResult (text : String) : Json :=
  .obj [("message", .obj [("role", .str "agent"),
          ("parts", .arr [.obj [("kind", .str "text"), ("text", .str text)]])])]

/-- The `tasks/send` result payload: note the task id is the string
`f"task-{request_id}"`, derived from the caller-supplied id. -/
def taskResult (rid : Json) (text : String) : Json :=
  .obj [("id", .str ("task-" ++ pyStr rid)),
        ("status", .obj [("state", .str "completed")]),
        ("artifacts", .arr [.obj
          [("parts", .arr [.obj [("kind", .str "text"), ("text", .str text)]])]])]

/-- Body of the `try` block of `handle_a2a_request` after `json()`
succeeded. -/
def handleCore (env : Env) (body : Json) : Except String Json :=
  match pyGet body "method" (.str "") with
  | .error e => .error e
  | .ok method =>
  match pyGet body "params" (.obj []) with
  | .error e => .error e
  | .ok params =>
  match pyGet body "id" (.str "1") with
  | .error e => .error e
  | .ok request_id =>
  if jEqStr method "message/send" then
    match pyGet params "message" (.obj []) with
    | .error e => .error e
    | .ok message =>
    match pyGet message "parts" (.arr []) with
    | .error e => .error e
    | .ok parts =>
    match pyIter parts with
    | .error e => .error e
    | .ok partsList =>
    match extractUserText partsList with
    | .error e => .error e
    | .ok user_text =>
    match processWeatherQueryJ env user_text with
    | .error e => .error e
    | .ok response_text => .ok (successEnv request_id (messageResult response_text))
  else if jEqStr method "tasks/send" then
    match pyGet params "task" (.obj []) with
    | .error e => .error e
    | .ok task =>
    match pyGet task "message" (.obj []) with
    | .error e => .error e
    | .ok message =>
    match pyGet message "parts" (.arr []) with
    | .error e => .error e
    | .ok parts =>
    match pyIter parts with
    | .error e => .error e
    | .ok partsList =>
    match extractUserText partsList with
    | .error e => .error e
    | .ok user_text =>
    match processWeatherQueryJ env user_text with
    | .error e => .error e
    | .ok response_text => .ok (successEnv request_id (taskResult request_id response_text))
  else
    .ok (errEnv request_id (-32601) ("Method not found: " ++ pyStr method))

/-- The whole `try` block: decode, then dispatch. -/
def runCore (env : Env) (input : Except String Json) : Except String Json :=
  match input with
  | .error e => .error e
  | .ok body => handleCore env body

/-- `handle_a2a_request`: every exception is converted by the
`except Exception` handler into a `-32000` envelope whose id is the
literal string `"error"`. -/
def handle (env : Env) (input : Except String Json) : Json :=
  match runCore env input with
  | .ok response => response
  | .error e => errEnv (.str "error") (-32000) e

/-- Shape check: a well-formed JSON-RPC response envelope — `jsonrpc`
tag `"2.0"`, an `id`, and exactly one of `result` or a
`{code, message}` error object. -/
def isResponseEnvelope (j : Json) : Bool :=
  match j with
  | .obj [("jsonrpc", .str "2.0"), ("id", _), ("result", _)] => true
  | .obj [("jsonrpc", .str "2.0"), ("id", _),
      ("error", .obj [("code", .num _), ("message", .str _)])] => true
  | _ => false

/-- A well-formed `message/send` request body. -/
def mkMessageSendBody (rid : Json) (parts : List Json) : Json :=
  .obj [("jsonrpc", .str "2.0"), ("method", .str "message/send"),
        ("params", .obj [("message", .obj [("parts", .arr parts)])]),
        ("id", rid)]

/-- A well-formed `tasks/send` request body. -/
def mkTasksSendBody (rid : Json) (parts : List Json) : Json :=
  .obj [("jsonrpc", .str "2.0"), ("method", .str "tasks/send"),
        ("params", .obj [("task", .obj
          [("message", .obj [("parts", .arr parts)])])]),
        ("id", rid)]

/-! ### Currency agent (`currency_agent/agent.py`)

Python floats are modelled as exact rationals; `round(x, n)` as exact
rational rounding. The identity-conversion branch performs no
arithmetic, so it is unaffected by this abstraction. -/

/-- `round(x, 2)`. -/
def round2 (q : ℚ) : ℚ := ((round (q * 100) : ℤ) : ℚ) / 100

/-- `round(x, 4)`. -/
def round4 (q : ℚ) : ℚ := ((round (q * 10000) : ℤ) : ℚ) / 10000

/-- Rendering of a float in an f-string (abstraction of Python float
`repr`: integers print with a trailing `.0`). -/
def pyFloatStr (q : ℚ) : String :=
  if q.den = 1 then toString q.num ++ ".0" else toString q

/-- The `EXCHANGE_RATES` dict, in insertion order. -/
def EXCHANGE_RATES : List ((String × String) × ℚ) :=
  [(("USD", "EUR"), 0.92), (("USD", "GBP"), 0.79), (("USD", "JPY"), 149.50),
   (("USD", "CAD"), 1.36), (("USD", "AUD"), 1.53), (("USD", "INR"), 83.12),
   (("USD", "CHF"), 0.88), (("USD", "CNY"), 7.24), (("USD", "MXN"), 17.15),
   (("USD", "BRL"), 4.97), (("EUR", "USD"), 1.09), (("EUR", "GBP"), 0.86),
   (("EUR", "JPY"), 162.85), (("GBP", "USD"), 1.27), (("GBP", "EUR"), 1.16),
   (("JPY", "USD"), 0.0067), (("INR", "USD"), 0.012)]

/-- Result dict of `convert_currency`: on failure `converted_amount`
and `exchange_rate` are Python `None`, hence a separate shape. -/
inductive CurrencyResult where
  | ok (original_amount : ℚ) (from_currency to_currency : String)
      (converted_amount exchange_rate : ℚ) (message : String)
  | notAvailable (original_amount : ℚ) (from_currency to_currency : String)
      (message : String)
deriving DecidableEq

/-- `convert_currency(amount, from_currency, to_currency)`,
parameterised by the rate table (the repo instantiates it with
`EXCHANGE_RATES`). -/
def convert_currencyT (rates : List ((String × String) × ℚ))
    (amount : ℚ) (from_currency to_currency : String) : CurrencyResult :=
  let fc := pyUpper from_currency
  let tc := pyUpper to_currency
  if fc = tc then
    .ok amount fc tc amount 1.0
      (pyFloatStr amount ++ " " ++ fc ++ " = " ++ pyFloatStr amount ++ " " ++ tc)
  else
    match rates.lookup (fc, tc) with
    | some rate =>
        let converted := round2 (amount * rate)
        .ok amount fc tc converted rate
          (pyFloatStr amount ++ " " ++ fc ++ " = " ++
            pyFloatStr converted ++ " " ++ tc)
    | none =>
        if fc ≠ "USD" ∧ tc ≠ "USD" then
          match rates.lookup (fc, "USD"), rates.lookup ("USD", tc) with
          | some rate1, some rate2 =>
              let combined_rate := rate1 * rate2
              let converted := round2 (amount * combined_rate)
              .ok amount fc tc converted (round4 combined_rate)
                (pyFloatStr amount ++ " " ++ fc ++ " = " ++
                  pyFloatStr converted ++ " " ++ tc ++ " (via USD)")
          | _, _ =>
              .notAvailable amount fc tc
                ("Exchange rate not available for " ++ fc ++ " to " ++ tc)
        else
          .notAvailable amount fc tc
            ("Exchange rate not available for " ++ fc ++ " to " ++ tc)

/-- `convert_currency` as shipped, over `EXCHANGE_RATES`. -/
def convert_currency (amount : ℚ) (from_currency to_currency : String) :
    CurrencyResult :=
  convert_currencyT EXCHANGE_RATES amount from_currency to_currency

/-! ### Concrete environments for evaluation -/

/-- A concrete process environment (one instant of `datetime.now()`
and one hash seed). -/
def env0 : Env :=
  { isoNow := "2026-10-12T09:00:00.000001"
    dateStr := fun i => "2026-10-" ++ toString (13 + i)
    dayStr := fun _ => "Monday"
    strHash := fun _ => 0 }

/-- Same instant as `env0` but a different per-process hash seed. -/
def env2 : Env := { env0 with strHash := fun s => (s.length : Int) }

/-- Same hash seed and forecast dates as `env0` but a later
`datetime.now()` timestamp. -/
def env3 : Env := { env0 with isoNow := "2026-10-12T09:00:07.500000" }

/-- Does a part's `kind` entry equal `"text"`? (predicate of the spec's
"first `TextPart`" description). -/
def hasTextKind (p : Json) : Bool :=
  match jLookup p "kind" with
  | some (.str s) => s = "text"
  | _ => false

/-- Spec-side description of text extraction ("the text of the first
part whose kind is text, else the empty string"), to be compared with
the source-translated `extractUserText`. -/
def firstTextSpec (parts : List Json) : Json :=
  match parts.find? hasTextKind with
  | some p => (jLookup p "text").getD (.str "")
  | none => .str ""

/-- The `error.code` of a response envelope, when present. -/
def errCodeOf (j : Json) : Option Int :=
  match jLookup j "error" with
  | some e =>
      match jLookup e "code" with
      | some (.num n) => some n
      | _ => none
  | none => none

/-- The `result.id` (task id) of a response envelope, when present. -/
def resultTaskIdOf (j : Json) : Option Json :=
  (jLookup j "result").bind (fun r => jLookup r "id")

/-- A `{kind: "text", text: s}` part. -/
def textPartOf (s : String) : Json :=
  .obj [("kind", .str "text"), ("text", .str s)]

/-- First `tasks/send` request of the C1 scenario: correlation id `"1"`. -/
def taskBodyA : Json := mkTasksSendBody (.str "1") [textPartOf "weather in tokyo"]

/-- Second, different `tasks/send` request carrying the same
correlation id `"1"`. -/
def taskBodyB : Json := mkTasksSendBody (.str "1") [textPartOf "forecast for london"]

/-- A body that decodes fine but raises inside handling: `params` is a
list, so `params.get("message", {})` raises `AttributeError`. -/
def badParamsBody : Json :=
  .obj [("method", .str "message/send"), ("params", .arr []), ("id", .str "42")]

/-! ### Dispatcher lemmas -/

/-- Unfolding of the dispatcher on a well-formed `message/send` body:
everything up to the part loop succeeds definitionally. -/
theorem handleCore_message_send (env : Env) (rid : Json) (parts : List Json) :
    handleCore env (mkMessageSendBody rid parts) =
      match extractUserText parts with
      | .error e => .error e
      | .ok user_text =>
        match processWeatherQueryJ env user_text with
        | .error e => .error e
        | .ok response_text =>
            .ok (successEnv rid (messageResult response_text)) := rfl

/-- Unfolding of the dispatcher on a well-formed `tasks/send` body. -/
theorem handleCore_tasks_send (env : Env) (rid : Json) (parts : List Json) :
    handleCore env (mkTasksSendBody rid parts) =
      match extractUserText parts with
      | .error e => .error e
      | .ok user_text =>
        match processWeatherQueryJ env user_text with
        | .error e => .error e
        | .ok response_text =>
            .ok (successEnv rid (taskResult rid response_text)) := rfl

/-- The dispatcher's reply on a `message/send` body whose parts yield
the query string `t`. -/
theorem handle_message_send (env : Env) (rid : Json) (parts : List Json)
    (t : String) (hx : extractUserText parts = .ok (.str t)) :
    handle env (.ok (mkMessageSendBody rid parts)) =
      successEnv rid (messageResult (processWeatherQuery env t)) := by
  have h1 := handleCore_message_send env rid parts
  rw [hx] at h1
  simp only [handle, runCore, h1, processWeatherQueryJ]

/-- The dispatcher's reply on a `tasks/send` body whose parts yield
the query string `t`. -/
theorem handle_tasks_send (env : Env) (rid : Json) (parts : List Json)
    (t : String) (hx : extractUserText parts = .ok (.str t)) :
    handle env (.ok (mkTasksSendBody rid parts)) =
      successEnv rid (taskResult rid (processWeatherQuery env t)) := by
  have h1 := handleCore_tasks_send env rid parts
  rw [hx] at h1
  simp only [handle, runCore, h1, processWeatherQueryJ]

theorem isResponseEnvelope_successEnv (rid result : Json) :
    isResponseEnvelope (successEnv rid result) = true := rfl

theorem isResponseEnvelope_errEnv (rid : Json) (c : Int) (m : String) :
    isResponseEnvelope (errEnv rid c m) = true := rfl

/-- Every successful exit of the `try` block is a well-formed
response envelope. -/
theorem handleCore_shape (env : Env) (body r : Json)
    (h : handleCore env body = .ok r) : isResponseEnvelope r = true := by
  unfold handleCore at h
  repeat' split at h
  all_goals try cases h
  all_goals first
    | exact isResponseEnvelope_successEnv ..
    | exact isResponseEnvelope_errEnv ..

/-- The loop's `part.get("kind") == "text"` test agrees with the
spec-side `hasTextKind` on dict parts. -/
theorem jEqStr_getD_kind (fs : List (String × Json)) :
    jEqStr ((fs.lookup "kind").getD .null) "text" = hasTextKind (.obj fs) := by
  cases h : fs.lookup "kind" with
  | none => simp [jEqStr, hasTextKind, jLookup, h]
  | some v => cases v <;> simp [jEqStr, hasTextKind, jLookup, h]

/-- On a list of dict parts the extraction loop computes exactly the
spec-side "first text part" value. -/
theorem extractUserText_eq_spec (parts : List Json)
    (h : ∀ p ∈ parts, p.isObj = true) :
    extractUserText parts = .ok (firstTextSpec parts) := by
  induction parts with
  | nil => rfl
  | cons p rest ih =>
    have hp := h p (List.mem_cons_self p rest)
    have hrest : ∀ q ∈ rest, q.isObj = true :=
      fun q hq => h q (List.mem_cons_of_mem p hq)
    cases p <;> simp [Json.isObj] at hp
    rename_i fs
    simp only [extractUserText, pyGetNone]
    rw [jEqStr_getD_kind fs]
    by_cases htk : hasTextKind (.obj fs) = true
    · simp [htk, firstTextSpec, List.find?_cons_of_pos, pyGet, jLookup]
    · rw [if_neg (by simp [htk]), ih hrest]
      simp [firstTextSpec, List.find?_cons_of_neg,
        Bool.not_eq_true _ ▸ htk, htk]

/-! ### Claim theorems -/

/-- C1: the code derives the task id from the caller-supplied
correlation id (`f"task-{request_id}"`), so two `tasks/send` requests
carrying the same correlation id `"1"` receive the *same* task id
`"task-1"` — the server-generated-unique-id property fails. -/
theorem task_id_collision_c1 :
    jLookup taskBodyA "id" = jLookup taskBodyB "id" ∧
    resultTaskIdOf (handle env0 (.ok taskBodyA)) = some (.str "task-1") ∧
    resultTaskIdOf (handle env0 (.ok taskBodyB)) = some (.str "task-1") :=
  ⟨rfl, rfl, rfl⟩

/-- C2 (amended): every input — parse failure or decoded body —
produces exactly one well-formed response envelope, and any exception
raised inside the `try` block is converted to an error envelope with
code `-32000` carrying the exception's message text; but that error
envelope's id is the literal string `"error"`, not the request's id. -/
theorem dispatcher_single_response_c2 (env : Env) (input : Except String Json) :
    isResponseEnvelope (handle env input) = true ∧
    ∀ e, runCore env input = .error e →
      handle env input = errEnv (.str "error") (-32000) e := by
  constructor
  · cases input with
    | error e => exact isResponseEnvelope_errEnv ..
    | ok body =>
      cases hb : handleCore env body with
      | error e =>
          simp only [handle, runCore, hb]
          exact isResponseEnvelope_errEnv ..
      | ok r =>
          simp only [handle, runCore, hb]
          exact handleCore_shape env body r hb
  · intro e he
    unfold handle
    rw [he]

theorem dispatcher_single_response_c2_witness :
    isResponseEnvelope (handle env0 (.ok badParamsBody)) = true ∧
    handle env0 (.ok badParamsBody) =
      errEnv (.str "error") (-32000) "'list' object has no attribute 'get'" :=
  ⟨(dispatcher_single_response_c2 env0 (.ok badParamsBody)).1,
   (dispatcher_single_response_c2 env0 (.ok badParamsBody)).2 _ rfl⟩

/-- C2 counterexample: a decodable request with id `"42"` that raises
during handling is answered with id `"error"` — the id is not echoed
identically on the `-32000` path. -/
theorem error_id_not_echoed_c2 :
    jLookup badParamsBody "id" = some (.str "42") ∧
    jLookup (handle env0 (.ok badParamsBody)) "id" = some (.str "error") ∧
    Json.str "error" ≠ Json.str "42" :=
  ⟨rfl, rfl, fun hcontra => absurd (Json.str.inj hcontra) (by decide)⟩

/-- C3 (amended): a body that fails to decode is answered directly —
never reaching method routing — with an error envelope whose code is
`-32000` (the single catch-all; the code has no `-32700` path),
carrying the parse exception's message and id `"error"`. -/
theorem parse_failure_c3 (env : Env) (e : String) :
    handle env (.error e) = errEnv (.str "error") (-32000) e := rfl

/-- C3 counterexample: on an unparseable body the error code is
`-32000`, not the claimed `-32700`. -/
theorem parse_failure_code_c3_counterexample :
    errCodeOf (handle env0 (.error "Expecting value: line 1 column 1 (char 0)")) =
      some (-32000) ∧ (-32000 : Int) ≠ -32700 :=
  ⟨rfl, by decide⟩

/-- C4: a well-formed request whose string method is neither
`message/send` nor `tasks/send` is answered with an error envelope
with code `-32601`, message `"Method not found: <method>"`, and the
request's own id. -/
theorem method_not_found_c4 (env : Env) (fields : List (String × Json))
    (m : String) (rid : Json)
    (hm : fields.lookup "method" = some (.str m))
    (h1 : m ≠ "message/send") (h2 : m ≠ "tasks/send")
    (hid : fields.lookup "id" = some rid) :
    handle env (.ok (.obj fields)) =
      errEnv rid (-32601) ("Method not found: " ++ m) := by
  unfold handle runCore handleCore
  simp [pyGet, hm, hid, jEqStr, h1, h2, pyStr]

theorem method_not_found_c4_witness :
    handle env0 (.ok (.obj [("method", .str "bogus/method"), ("id", .str "7")])) =
      errEnv (.str "7") (-32601) "Method not found: bogus/method" :=
  method_not_found_c4 env0 _ "bogus/method" (.str "7") rfl
    (by decide) (by decide) rfl

/-- C5: a valid `message/send` envelope is answered with a success
envelope carrying the request's id, whose result wraps the router's
answer text as a `role: "agent"` message with one text part. -/
theorem message_send_reply_c5 (env : Env) (rid : Json) (parts : List Json)
    (t : String) (hx : extractUserText parts = .ok (.str t)) :
    handle env (.ok (mkMessageSendBody rid parts)) =
      successEnv rid (messageResult (processWeatherQuery env t)) :=
  handle_message_send env rid parts t hx

theorem message_send_reply_c5_witness :
    handle env0 (.ok (mkMessageSendBody (.str "5") [textPartOf "weather in paris"])) =
      successEnv (.str "5")
        (messageResult (processWeatherQuery env0 "weather in paris")) :=
  message_send_reply_c5 env0 (.str "5") [textPartOf "weather in paris"]
    "weather in paris" rfl

/-- C6: a valid `tasks/send` envelope is answered with a `TaskResult`
whose `status.state` is the terminal value `"completed"` and whose
`artifacts` is exactly one artifact holding the answer text as a
single text part. -/
theorem tasks_send_reply_c6 (env : Env) (rid : Json) (parts : List Json)
    (t : String) (hx : extractUserText parts = .ok (.str t)) :
    handle env (.ok (mkTasksSendBody rid parts)) =
      successEnv rid (taskResult rid (processWeatherQuery env t)) ∧
    jLookup (taskResult rid (processWeatherQuery env t)) "status" =
      some (.obj [("state", .str "completed")]) ∧
    jLookup (taskResult rid (processWeatherQuery env t)) "artifacts" =
      some (.arr [.obj [("parts", .arr [.obj [("kind", .str "text"),
        ("text", .str (processWeatherQuery env t))]])]]) :=
  ⟨handle_tasks_send env rid parts t hx, rfl, rfl⟩

theorem tasks_send_reply_c6_witness :
    handle env0 (.ok (mkTasksSendBody (.str "9") [textPartOf "alerts for sydney"])) =
      successEnv (.str "9")
        (taskResult (.str "9") (processWeatherQuery env0 "alerts for sydney")) :=
  (tasks_send_reply_c6 env0 (.str "9") [textPartOf "alerts for sydney"]
    "alerts for sydney" rfl).1

/-- C7: on a parts list of dicts the extracted query text is exactly
the spec's "text of the first part whose kind is text" (first match
wins, later parts ignored), and when no part has kind `"text"` —
including the empty list — the request is still answered with a normal
success envelope for the empty query. -/
theorem first_text_part_c7 (env : Env) (rid : Json) (parts : List Json)
    (h : ∀ p ∈ parts, p.isObj = true) :
    extractUserText parts = .ok (firstTextSpec parts) ∧
    (parts.find? hasTextKind = none →
      handle env (.ok (mkMessageSendBody rid parts)) =
        successEnv rid (messageResult (processWeatherQuery env ""))) := by
  refine ⟨extractUserText_eq_spec parts h, fun hn => ?_⟩
  apply handle_message_send
  rw [extractUserText_eq_spec parts h]
  unfold firstTextSpec
  rw [hn]

theorem first_text_part_c7_witness :
    extractUserText [textPartOf "a", textPartOf "b"] =
      .ok (firstTextSpec [textPartOf "a", textPartOf "b"]) ∧
    handle env0 (.ok (mkMessageSendBody (.str "3") [Json.obj [("kind", .str "image")]])) =
      successEnv (.str "3") (messageResult (processWeatherQuery env0 "")) :=
  ⟨(first_text_part_c7 env0 (.str "3") [textPartOf "a", textPartOf "b"]
      (by decide)).1,
   (first_text_part_c7 env0 (.str "3") [Json.obj [("kind", .str "image")]]
      (by decide)).2 rfl⟩

/-- C8 (amended): each weather handler is deterministic given the
ambient process state it reads — `get_current_weather` depends on the
environment only through the `datetime.now()` timestamp, and
`get_weather_forecast` only through the forecast dates and the
per-process string hash — but they are not pure functions of their
input alone. -/
theorem handler_determinism_c8 (e1 e2 : Env) (city : String) (days : Nat) :
    (e1.isoNow = e2.isoNow →
      get_current_weather e1 city = get_current_weather e2 city) ∧
    (e1.dateStr = e2.dateStr → e1.dayStr = e2.dayStr →
      e1.strHash = e2.strHash →
      get_weather_forecast e1 city days = get_weather_forecast e2 city days) := by
  constructor
  · intro hn
    unfold get_current_weather
    rw [hn]
  · intro hd hy hh
    unfold get_weather_forecast
    rw [hd, hy, hh]

theorem handler_determinism_c8_witness :
    get_current_weather env0 "tokyo" = get_current_weather env2 "tokyo" ∧
    get_weather_forecast env0 "tokyo" 3 = get_weather_forecast env3 "tokyo" 3 :=
  ⟨(handler_determinism_c8 env0 env2 "tokyo" 3).1 rfl,
   (handler_determinism_c8 env0 env3 "tokyo" 3).2 rfl rfl rfl⟩

/-- C8 counterexample: `get_current_weather` embeds
`datetime.now().isoformat()` in its result, so two invocations on the
same input at different clock instants return different results — the
handler is not a pure function of its input. -/
theorem timestamp_dependence_c8_counterexample :
    get_current_weather env0 "tokyo" ≠ get_current_weather env3 "tokyo" := by
  intro hcontra
  have h := congrArg cwTimestamp hcontra
  rw [show cwTimestamp (get_current_weather env0 "tokyo") =
        some "2026-10-12T09:00:00.000001" from rfl,
      show cwTimestamp (get_current_weather env3 "tokyo") =
        some "2026-10-12T09:00:07.500000" from rfl] at h
  exact absurd (Option.some.inj h) (by decide)

/-- C9: identity conversion — for every amount and every currency code
`c`, supported or not, `convert_currency(amount, c, c)` succeeds with
`exchange_rate` exactly `1.0` and `converted_amount` exactly the input
amount; the result is the same for *every* rate table, so the table is
never consulted. -/
theorem identity_conversion_c9 (rates : List ((String × String) × ℚ))
    (amount : ℚ) (c : String) :
    convert_currency amount c c =
      .ok amount (pyUpper c) (pyUpper c) amount 1.0
        (pyFloatStr amount ++ " " ++ pyUpper c ++ " = " ++
          pyFloatStr amount ++ " " ++ pyUpper c) ∧
    convert_currencyT rates amount c c = convert_currency amount c c := by
  constructor <;> simp [convert_currency, convert_currencyT]

/-- C10: for every city present in `WEATHER_DATA` and every
non-negative `days`, the forecast succeeds with exactly `days` entries
and in every entry the high exceeds the low by exactly 15 °F. -/
theorem forecast_length_spread_c10 (env : Env) (city : String) (days : Nat)
    (h : (WEATHER_DATA.lookup (pyStrip (pyLower city))).isSome = true) :
    ∃ fc m, get_weather_forecast env city days =
        .ok (pyTitle city) days fc m ∧
      fc.length = days ∧ ∀ f ∈ fc, f.high_f - f.low_f = 15 := by
  simp only [get_weather_forecast]
  obtain ⟨d, hd⟩ := Option.isSome_iff_exists.mp h
  rw [hd]
  refine ⟨_, _, rfl, by simp, ?_⟩
  intro f hf
  simp only [List.mem_map] at hf
  obtain ⟨i, hi, rfl⟩ := hf
  simp only
  omega

theorem forecast_length_spread_c10_witness :
    (WEATHER_DATA.lookup (pyStrip (pyLower "Tokyo"))).isSome = true ∧
    ∃ fc m, get_weather_forecast env0 "Tokyo" 5 =
        .ok (pyTitle "Tokyo") 5 fc m ∧
      fc.length = 5 ∧ ∀ f ∈ fc, f.high_f - f.low_f = 15 :=
  ⟨rfl, forecast_length_spread_c10 env0 "Tokyo" 5 rfl⟩
